import Mathlib

/-!
Verification of the educational notebooks of `BayesianModelEvaluation`.

The repository consists of two Jupyter notebooks:

  * `notebooks/4_SingleModelResults/2_Stu_SingleModelVisualizations.ipynb`
  * `notebooks/5_ModelComparison/1_Ins_ModelComparison.ipynb`

Each notebook is a linear list of cells; each code cell is a short list of
Python statements: imports, a working-directory normalization guard, a call
to NumPy's global seeding function, assignments binding names to the results
of ArviZ library calls, and bare library-call expressions whose values are
rendered inline.  We embed the code cells statement by statement, give the
statement language a small-step interpreter over an explicit process state
(working directory, RNG state, plotting style, module table, bindings,
inline outputs, files written, network connections), and prove the claimed
properties over that embedding.  The ArviZ/NumPy library calls appearing in
the notebooks are modelled as the spec describes them: black-box routines
that read local serialized inference artifacts, compute tables, and render
inline output, owning no state of this repository.
-/

namespace ModelEvalNB

/-- Values appearing inside a Python dict literal in the notebooks: either a
reference to a previously bound variable, or an inline
`az.load_arviz_data(name)` call (as in the comparison notebook's cell 12). -/
inductive DVal where
  | var (n : String)
  | loadDataset (n : String)
deriving DecidableEq, Repr

/-- Arguments of the library calls appearing in the notebooks. -/
inductive Arg where
  | strLit (s : String)
  /-- an `os.path.join(dir, fname)` expression used as a path argument. -/
  | pathJoin (dir fname : String)
  | var (n : String)
  /-- a Python dict literal `\x7bk1: v1, ...\x7d`. -/
  | dictLit (entries : List (String × DVal))
  /-- a boolean keyword argument `k=b`. -/
  | boolKw (k : String) (b : Bool)
  /-- a string keyword argument `k="v"`. -/
  | strKw (k : String) (v : String)
deriving DecidableEq, Repr

/-- The statements occurring in the notebooks' code cells. -/
inductive Stmt where
  /-- `import m as al` (or plain `import m`, with `al = m`). -/
  | modImport (m al : String)
  /-- `from m import n1, n2, ...`. -/
  | fromImport (m : String) (names : List String)
  /-- the working-directory guard appearing verbatim in both setup cells:
  `if os.path.split(os.getcwd())[-1] != "notebooks": os.chdir(os.path.join(".."))`. -/
  | chdirGuard
  /-- `np.random.seed(n)`. -/
  | seed (n : Nat)
  /-- `x = fn(args...)` where `fn` is a (dotted) library function name. -/
  | assignCall (x fn : String) (args : List Arg)
  /-- `x = "v"`, a plain string-constant assignment. -/
  | assignStr (x v : String)
  /-- `x = \x7bk1: v1, ...\x7d`, a dict-literal assignment. -/
  | assignDict (x : String) (entries : List (String × DVal))
  /-- a bare expression statement `fn(args...)`; in a notebook the value of
  the last bare expression of a cell is rendered inline. -/
  | callStmt (fn : String) (args : List Arg)
deriving DecidableEq, Repr

/-- A notebook cell: markdown commentary or a code cell. -/
inductive Cell where
  | markdown
  | code (stmts : List Stmt)
deriving DecidableEq, Repr

def codeStmts : Cell → List Stmt
  | .markdown => []
  | .code l => l

/-- All statements of a notebook, in execution order. -/
def allStmts (nb : List Cell) : List Stmt :=
  (nb.map codeStmts).flatten

/-! ### Transcription of notebook 4 (`2_Stu_SingleModelVisualizations.ipynb`) -/

/-- Cell 1 of the single-model notebook: the five imports (os, arviz as az,
numpy as np, pandas as pd, matplotlib.pyplot as plt), then the chdir guard,
then `np.random.seed(0)`. -/
def setup4 : List Stmt :=
  [ .modImport "os" "os"
  , .modImport "arviz" "az"
  , .modImport "numpy" "np"
  , .modImport "pandas" "pd"
  , .modImport "matplotlib.pyplot" "plt"
  , .chdirGuard
  , .seed 0 ]

/-- The style cell `az.style.use('arviz-white')`, identical in both
notebooks. -/
def styleStmt : Stmt := .callStmt "az.style.use" [.strLit "arviz-white"]

/-- `greenpower = az.from_netcdf(os.path.join("inference_data", "GreenPower.nc"))`. -/
def loadGreen : Stmt :=
  .assignCall "greenpower" "az.from_netcdf" [.pathJoin "inference_data" "GreenPower.nc"]

/-- `budgetfertilizer = az.from_netcdf(os.path.join("inference_data", "BudgetFertilizer.nc"))`. -/
def loadBudget : Stmt :=
  .assignCall "budgetfertilizer" "az.from_netcdf" [.pathJoin "inference_data" "BudgetFertilizer.nc"]

/-- `rootsgalore = az.from_netcdf(os.path.join("inference_data", "RootsGalore.nc"))`. -/
def loadRoots : Stmt :=
  .assignCall "rootsgalore" "az.from_netcdf" [.pathJoin "inference_data" "RootsGalore.nc"]

/-- Notebook 4, cell by cell.  Cells 10 and 12 contain only comments
(`# Plot Forest`, `# Create Summary Tables, one for each fertilizer`) and so
embed as empty statement lists. -/
def nb4 : List Cell :=
  [ .markdown                      -- 0: section title
  , .code setup4                   -- 1: imports / chdir guard / seed
  , .code [styleStmt]              -- 2: az.style.use
  , .markdown                      -- 3: activity text (names the three .nc files)
  , .markdown                      -- 4: exercise 1 heading
  , .markdown                      -- 5: posterior plots heading
  , .code [loadGreen]              -- 6
  , .code [loadBudget]             -- 7
  , .code [loadRoots]              -- 8
  , .markdown                      -- 9: forest plots heading
  , .code []                       -- 10: comment only
  , .markdown                      -- 11: summary tables heading
  , .code []                       -- 12: comment only
  , .markdown                      -- 13: interpretation
  , .markdown ]                    -- 14: exercise 2

/-- The three inference files named in the activity markdown cell of
notebook 4 ("these are contained in the files `GreenPower.nc`,
`BudgetFertilizer.nc`, and `RootsGalore.nc`"), transcribed in the order the
notebook loads them. -/
def activityFiles : List String :=
  ["GreenPower.nc", "BudgetFertilizer.nc", "RootsGalore.nc"]

/-! ### Transcription of notebook 5 (`1_Ins_ModelComparison.ipynb`) -/

/-- Cell 1 of the comparison notebook: six imports, `np.random.seed(0)`, the
chdir guard, `from utils import metropolis_hastings`, and
`NETCDF_DIR = "inference_data"`. -/
def setup5 : List Stmt :=
  [ .modImport "os" "os"
  , .modImport "time" "time"
  , .modImport "arviz" "az"
  , .modImport "numpy" "np"
  , .modImport "pymc3" "pm"
  , .modImport "scipy.stats" "stats"
  , .seed 0
  , .chdirGuard
  , .fromImport "utils" ["metropolis_hastings"]
  , .assignStr "NETCDF_DIR" "inference_data" ]

/-- Cell 8 of the comparison notebook: load two sample datasets, build the
comparison dict, and display `az.compare(compare_dict)`. -/
def cmp8 : List Stmt :=
  [ .assignCall "data1" "az.load_arviz_data" [.strLit "non_centered_eight"]
  , .assignCall "data2" "az.load_arviz_data" [.strLit "centered_eight"]
  , .assignDict "compare_dict" [("non centered", .var "data1"), ("centered", .var "data2")]
  , .callStmt "az.compare" [.var "compare_dict"] ]

/-- Cell 9: `az.compare(compare_dict, scale="log")`. -/
def cmp9 : List Stmt :=
  [ .callStmt "az.compare" [.var "compare_dict", .strKw "scale" "log"] ]

/-- Cell 12: `model_compare = az.compare(\x7b...inline loads...\x7d)` then
`az.plot_compare(model_compare, plot_ic_diff=True, plot_standard_error=True,
insample_dev=True)`. -/
def cmp12 : List Stmt :=
  [ .assignCall "model_compare" "az.compare"
      [.dictLit [ ("Centered 8 schools", .loadDataset "centered_eight")
                , ("Non-centered 8 schools", .loadDataset "non_centered_eight") ]]
  , .callStmt "az.plot_compare"
      [ .var "model_compare"
      , .boolKw "plot_ic_diff" true
      , .boolKw "plot_standard_error" true
      , .boolKw "insample_dev" true ] ]

/-- Notebook 5, cell by cell. -/
def nb5 : List Cell :=
  [ .markdown                      -- 0: section title
  , .code setup5                   -- 1
  , .code [styleStmt]              -- 2
  , .markdown                      -- 3: learning objectives
  , .markdown                      -- 4: infinite models
  , .markdown                      -- 5: information theory history
  , .markdown                      -- 6: information criterion detail
  , .markdown                      -- 7: compare heading
  , .code cmp8                     -- 8
  , .code cmp9                     -- 9
  , .markdown                      -- 10: column descriptions
  , .markdown                      -- 11: plot compare heading
  , .code cmp12                    -- 12
  , .markdown                      -- 13: plot legend
  , .markdown                      -- 14: practical advice
  , .markdown                      -- 15: PSIS-LOO heading
  , .markdown                      -- 16: PSIS-LOO text
  , .code [] ]                     -- 17: empty trailing cell

/-! ### Syntactic scans -/

/-- The external statistical library's public entry points invoked by the
notebooks (all ArviZ). -/
def externalApi : List String :=
  ["az.style.use", "az.from_netcdf", "az.load_arviz_data", "az.compare", "az.plot_compare"]

/-- The two external-library entry points that deserialize inference
artifacts. -/
def loadFns : List String := ["az.from_netcdf", "az.load_arviz_data"]

/-- The external library's serialization (persistence) entry points; the
notebooks call none of them. -/
def persistFns : List String := ["az.to_netcdf", "az.InferenceData.to_netcdf"]

/-- Modelled from the spec: the repository's own Python modules reachable
from the notebooks.  The module `utils` (the repository's
`notebooks/utils.py`, not under `src/`) is repository-local: the comparison
notebook first normalizes the working directory to the repository's
`notebooks` directory and then runs `from utils import metropolis_hastings`,
which resolves to that file, the repository's own Metropolis-Hastings MCMC
sampler.  It is not an installed external library. -/
def repoLocalModules : List String := ["utils"]

/-- Names imported from repository-local modules by a statement list. -/
def localImportedNames (l : List Stmt) : List String :=
  (l.map fun s =>
    match s with
    | .fromImport m ns => if repoLocalModules.contains m then ns else []
    | _ => []).flatten

/-- Library-call names contributed by the dict values of an argument
(inline `az.load_arviz_data` calls inside a dict literal). -/
def dvalFns (es : List (String × DVal)) : List String :=
  es.filterMap fun p =>
    match p.2 with
    | .loadDataset _ => some "az.load_arviz_data"
    | .var _ => none

def argFns : Arg → List String
  | .dictLit es => dvalFns es
  | _ => []

/-- All library-function names a statement invokes, including calls nested
inside dict-literal arguments. -/
def calledFns : Stmt → List String
  | .assignCall _ fn args => fn :: (args.map argFns).flatten
  | .callStmt fn args => fn :: (args.map argFns).flatten
  | .assignDict _ es => dvalFns es
  | _ => []

/-- All library-function names invoked by a statement list. -/
def allCalledFns (l : List Stmt) : List String :=
  (l.map calledFns).flatten

/-- The distinct deserialization entry points used by a statement list. -/
def entryPoints (l : List Stmt) : List String :=
  ((allCalledFns l).filter (fun f => loadFns.contains f)).dedup

/-- The `(directory, filename)` arguments of the `az.from_netcdf` file-load
calls of a statement list, in order. -/
def fileLoadArgs (l : List Stmt) : List (String × String) :=
  l.filterMap fun s =>
    match s with
    | .assignCall _ "az.from_netcdf" [.pathJoin d f] => some (d, f)
    | .callStmt "az.from_netcdf" [.pathJoin d f] => some (d, f)
    | _ => none

/-- Names bound by a statement list to the result of a deserialization
call. -/
def loadBoundNames (l : List Stmt) : List String :=
  l.filterMap fun s =>
    match s with
    | .assignCall x fn _ => if loadFns.contains fn then some x else none
    | _ => none

/-- Whether a statement binds the name `x`. -/
def bindsName (s : Stmt) (x : String) : Bool :=
  match s with
  | .assignCall y _ _ => y == x
  | .assignStr y _ => y == x
  | .assignDict y _ => y == x
  | _ => false

/-- How many statements of `l` bind the name `x`. -/
def bindCount (l : List Stmt) (x : String) : Nat :=
  (l.filter (fun s => bindsName s x)).length

/-- Whether an argument reads the variable `x`. -/
def argReads (a : Arg) (x : String) : Bool :=
  match a with
  | .var n => n == x
  | .dictLit es => es.any fun p =>
      match p.2 with
      | .var n => n == x
      | .loadDataset _ => false
  | _ => false

/-- Whether a statement reads the variable `x`. -/
def stmtReads (s : Stmt) (x : String) : Bool :=
  match s with
  | .assignCall _ _ args => args.any (fun a => argReads a x)
  | .callStmt _ args => args.any (fun a => argReads a x)
  | .assignDict _ es => es.any fun p =>
      match p.2 with
      | .var n => n == x
      | .loadDataset _ => false
  | _ => false

/-- Every statement of `l` that reads `x` uses it read-only: either as an
argument of a public external-library call that is not a persistence entry
point, or inside a plain dict literal (argument plumbing). -/
def readOnlyUse (l : List Stmt) (x : String) : Bool :=
  l.all fun s =>
    if stmtReads s x then
      match s with
      | .callStmt fn _ => externalApi.contains fn && !(persistFns.contains fn)
      | .assignCall _ fn _ => externalApi.contains fn && !(persistFns.contains fn)
      | .assignDict _ _ => true
      | _ => false
    else true

/-- Whether a statement is `np.random.seed(0)`. -/
def isSeedZero : Stmt → Bool
  | .seed n => n == 0
  | _ => false

/-- Whether a statement's semantics reads the NumPy global RNG state (in the
notebooks only the plotting call does: its rendered raster depends on the
RNG). -/
def rngReader : Stmt → Bool
  | .assignCall _ fn _ => fn == "az.plot_compare"
  | .callStmt fn _ => fn == "az.plot_compare"
  | _ => false

/-- No statement before the first `np.random.seed(0)` reads the RNG. -/
def seededBeforeRngUse (l : List Stmt) : Bool :=
  l.any isSeedZero && (l.takeWhile (fun s => !(isSeedZero s))).all (fun s => !(rngReader s))

/-! ### Interpreter

Process state and a statement interpreter.  Paths are lists of components of
an absolute directory (`[]` is the filesystem root); `os.path.split(p)[-1]`
is the last component (the empty string at the root, as in Python), and
`os.chdir("..")` drops the last component (a no-op at the root, as in
POSIX).  The external library's calls are modelled as the spec describes
them: they read serialized inference artifacts from the local store, compute
comparison tables, and emit inline renders; they write no files and open no
network connections.  Loaded inference data is opaque: a `Nat` content
identifier. -/

/-- The local store the external library reads from: files on disk (by
absolute path) and the library's named sample datasets, each holding opaque
inference-draw content. -/
structure FSys where
  files : List (List String × Nat)
  datasets : List (String × Nat)
deriving DecidableEq, Repr

def lookupFile (fs : FSys) (p : List String) : Option Nat :=
  (fs.files.find? (fun e => e.1 = p)).map (fun e => e.2)

def lookupDataset (fs : FSys) (n : String) : Option Nat :=
  (fs.datasets.find? (fun e => e.1 = n)).map (fun e => e.2)

/-- Values a notebook binding can hold. -/
inductive Val where
  /-- an opaque loaded inference-data object. -/
  | idata (content : Nat)
  /-- a comparison table: rows `(model name, content)` and the WAIC scale. -/
  | tableV (rows : List (String × Nat)) (scale : String)
  | strV (s : String)
  /-- a plain dict of model name to inference-data content. -/
  | dictV (entries : List (String × Nat))
deriving DecidableEq, Repr

/-- An inline render in the notebook UI. -/
inductive Out where
  /-- the rendered comparison table. -/
  | table (rows : List (String × Nat)) (scale : String)
  /-- a rendered raster image; the render is a function of the call, the
  data it plots, its flags, and the global RNG state at call time. -/
  | image (fn : String) (rows : List (String × Nat)) (flags : List (String × Bool)) (rng : Nat)
  /-- the textual repr of any other displayed value. -/
  | reprText (v : Val)
deriving DecidableEq, Repr

/-- Errors the external library raises; the notebooks define no handling, so
these abort the run. -/
inductive PErr where
  | missingFile (p : List String)
  | missingDataset (n : String)
  | nameErr (x : String)
  | typeErr (fn : String)
deriving DecidableEq, Repr

/-- The process-global and session state a notebook run threads. -/
structure PState where
  cwd : List String
  rng : Nat
  style : String
  modules : List String
  binds : List (String × Val)
  outputs : List Out
  written : List (List String)
  net : Nat
deriving DecidableEq, Repr

def initState (cwd : List String) (r : Nat) : PState :=
  { cwd := cwd, rng := r, style := "default", modules := [], binds := []
  , outputs := [], written := [], net := 0 }

/-- `os.path.split(d)[-1]`: the last path component, `""` at the root. -/
def basename (d : List String) : String :=
  (d.getLast?).getD ""

/-- `os.chdir(os.path.join(".."))`: drop the last component; at the root a
no-op. -/
def parentDir (d : List String) : List String :=
  d.dropLast

/-- The working-directory guard of the setup cells:
`if os.path.split(os.getcwd())[-1] != "notebooks": os.chdir(os.path.join(".."))`. -/
def chdirStep (d : List String) : List String :=
  if basename d = "notebooks" then d else parentDir d

def lookupBind (bs : List (String × Val)) (x : String) : Option Val :=
  (bs.find? (fun p => p.1 = x)).map (fun p => p.2)

def setBind (bs : List (String × Val)) (x : String) (v : Val) : List (String × Val) :=
  (bs.filter (fun p => p.1 ≠ x)) ++ [(x, v)]

/-- Evaluate a dict value: a variable must be bound to inference data; an
inline load reads the library's dataset store. -/
def evalDVal (fs : FSys) (bs : List (String × Val)) : DVal → Except PErr Nat
  | .var n =>
      match lookupBind bs n with
      | some (.idata c) => .ok c
      | some _ => .error (.typeErr n)
      | none => .error (.nameErr n)
  | .loadDataset n =>
      match lookupDataset fs n with
      | some c => .ok c
      | none => .error (.missingDataset n)

def evalEntries (fs : FSys) (bs : List (String × Val)) :
    List (String × DVal) → Except PErr (List (String × Nat))
  | [] => .ok []
  | (k, d) :: rest =>
      match evalDVal fs bs d with
      | .error e => .error e
      | .ok c =>
          match evalEntries fs bs rest with
          | .error e => .error e
          | .ok cs => .ok ((k, c) :: cs)

/-- The dict of models handed to `az.compare`: either a bound dict variable
or an inline dict literal. -/
def compareRows (fs : FSys) (bs : List (String × Val)) : List Arg → Except PErr (List (String × Nat))
  | .var x :: _ =>
      match lookupBind bs x with
      | some (.dictV es) => .ok es
      | _ => .error (.nameErr x)
  | .dictLit es :: _ => evalEntries fs bs es
  | _ => .error (.typeErr "az.compare")

/-- The `scale` keyword of `az.compare`; its library default is
`"deviance"`. -/
def scaleOf (args : List Arg) : String :=
  match args.filterMap (fun a =>
    match a with
    | .strKw "scale" v => some v
    | _ => none) with
  | v :: _ => v
  | [] => "deviance"

/-- The boolean keyword arguments of a plotting call. -/
def boolFlags (args : List Arg) : List (String × Bool) :=
  args.filterMap fun a =>
    match a with
    | .boolKw k b => some (k, b)
    | _ => none

/-- The effect of one external-library call: it may set the global plotting
style, emit one inline render, and return a value; nothing else. -/
structure CallEff where
  styleSet : Option String
  emit : Option Out
  value : Option Val
deriving DecidableEq, Repr

/-- Semantics of the external-library entry points the notebooks invoke,
modelled per the spec's black-box description: `az.style.use` sets the
global plotting style; `az.from_netcdf` reads a local file resolved against
the working directory; `az.load_arviz_data` reads the library's local sample
dataset store; `az.compare` computes a comparison table from a dict of
loaded inference data; `az.plot_compare` renders a raster image of a
comparison table (the render depends on the global RNG state).  Failures are
raised as errors. -/
def evalCall (fs : FSys) (cwd : List String) (bs : List (String × Val)) (rng : Nat)
    (fn : String) (args : List Arg) : Except PErr CallEff :=
  if fn = "az.style.use" then
    match args with
    | [.strLit s] => .ok ⟨some s, none, none⟩
    | _ => .error (.typeErr fn)
  else if fn = "az.from_netcdf" then
    match args with
    | [.pathJoin d f] =>
        match lookupFile fs (cwd ++ [d, f]) with
        | some c => .ok ⟨none, none, some (.idata c)⟩
        | none => .error (.missingFile (cwd ++ [d, f]))
    | _ => .error (.typeErr fn)
  else if fn = "az.load_arviz_data" then
    match args with
    | [.strLit n] =>
        match lookupDataset fs n with
        | some c => .ok ⟨none, none, some (.idata c)⟩
        | none => .error (.missingDataset n)
    | _ => .error (.typeErr fn)
  else if fn = "az.compare" then
    match compareRows fs bs args with
    | .error e => .error e
    | .ok rows => .ok ⟨none, none, some (.tableV rows (scaleOf args))⟩
  else if fn = "az.plot_compare" then
    match args with
    | .var x :: flags =>
        match lookupBind bs x with
        | some (.tableV rows _) => .ok ⟨none, some (.image fn rows (boolFlags flags) rng), none⟩
        | _ => .error (.nameErr x)
    | _ => .error (.typeErr fn)
  else .error (.nameErr fn)

/-- Apply a call's style/render effects to the state. -/
def applyEff (st : PState) (e : CallEff) : PState :=
  { st with style := e.styleSet.getD st.style
          , outputs := st.outputs ++ e.emit.toList }

/-- The inline display of a bare expression's value. -/
def render : Val → Out
  | .tableV rows sc => .table rows sc
  | v => .reprText v

/-- One statement of a notebook cell.  The second component is the error the
statement raised, if any; an error leaves the state as it was at the moment
it was raised (Python exceptions roll nothing back). -/
def stepR (fs : FSys) (s : Stmt) (st : PState) : PState × Option PErr :=
  match s with
  | .modImport m _ => ({ st with modules := st.modules ++ [m] }, none)
  | .fromImport m _ => ({ st with modules := st.modules ++ [m] }, none)
  | .chdirGuard => ({ st with cwd := chdirStep st.cwd }, none)
  | .seed n => ({ st with rng := n }, none)
  | .assignStr x v => ({ st with binds := setBind st.binds x (.strV v) }, none)
  | .assignDict x es =>
      match evalEntries fs st.binds es with
      | .error e => (st, some e)
      | .ok rows => ({ st with binds := setBind st.binds x (.dictV rows) }, none)
  | .assignCall x fn args =>
      match evalCall fs st.cwd st.binds st.rng fn args with
      | .error e => (st, some e)
      | .ok eff =>
          match eff.value with
          | some v => ({ applyEff st eff with binds := setBind st.binds x v }, none)
          | none => (applyEff st eff, none)
  | .callStmt fn args =>
      match evalCall fs st.cwd st.binds st.rng fn args with
      | .error e => (st, some e)
      | .ok eff =>
          match eff.value with
          | some v =>
              ({ applyEff st eff with
                  outputs := (applyEff st eff).outputs ++ [render v] }, none)
          | none => (applyEff st eff, none)

/-- Run a statement list; an unhandled error aborts the remainder of the
run, exactly as an uncaught exception stops a notebook's execution. -/
def runStmts (fs : FSys) : List Stmt → PState × Option PErr → PState × Option PErr
  | [], r => r
  | s :: rest, r =>
      match r.2 with
      | some _ => r
      | none => runStmts fs rest (stepR fs s r.1)

/-- Run a whole notebook from a working directory and an arbitrary initial
RNG state. -/
def runNotebook (fs : FSys) (nb : List Cell) (cwd : List String) (r : Nat) :
    PState × Option PErr :=
  runStmts fs (allStmts nb) (initState cwd r, none)

/-- The empty local store: no files on disk, no sample datasets. -/
def noFS : FSys := ⟨[], []⟩

/-! ### Interpreter lemmas -/

theorem runStmts_stuck (fs : FSys) (l : List Stmt) (st : PState) (e : PErr) :
    runStmts fs l (st, some e) = (st, some e) := by
  cases l <;> simp [runStmts]

theorem runStmts_append (fs : FSys) (l1 l2 : List Stmt) (r : PState × Option PErr) :
    runStmts fs (l1 ++ l2) r = runStmts fs l2 (runStmts fs l1 r) := by
  induction l1 generalizing r with
  | nil => rfl
  | cons s t ih =>
      obtain ⟨st, e⟩ := r
      cases e with
      | none => simp [runStmts, ih]
      | some e => simp [runStmts, runStmts_stuck]

/-- No statement of the language writes a file or opens a network
connection. -/
theorem stepR_wn (fs : FSys) (s : Stmt) (st : PState) :
    (stepR fs s st).1.written = st.written ∧ (stepR fs s st).1.net = st.net := by
  cases s <;> simp only [stepR] <;> (repeat' split) <;> simp [applyEff]

theorem runStmts_wn (fs : FSys) (l : List Stmt) (r : PState × Option PErr) :
    (runStmts fs l r).1.written = r.1.written ∧ (runStmts fs l r).1.net = r.1.net := by
  induction l generalizing r with
  | nil => exact ⟨rfl, rfl⟩
  | cons s t ih =>
      obtain ⟨st, e⟩ := r
      cases e with
      | none =>
          have h1 := stepR_wn fs s st
          have h2 := ih (stepR fs s st)
          simp only [runStmts]
          exact ⟨h2.1.trans h1.1, h2.2.trans h1.2⟩
      | some e => simp [runStmts]

/-- Only `az.style.use` sets the plotting style. -/
theorem evalCall_ok_styleNone (fs : FSys) (cwd : List String) (bs : List (String × Val))
    (rng : Nat) (fn : String) (args : List Arg) (eff : CallEff)
    (hfn : fn ≠ "az.style.use")
    (he : evalCall fs cwd bs rng fn args = .ok eff) : eff.styleSet = none := by
  simp only [evalCall, if_neg hfn] at he
  repeat' split at he
  all_goals simp_all
  all_goals (subst he; rfl)

/-- Statements other than the chdir guard, seeding, and the style call leave
the working directory, RNG state, and plotting style untouched. -/
def globalFree : Stmt → Bool
  | .chdirGuard => false
  | .seed _ => false
  | .assignCall _ fn _ => fn != "az.style.use"
  | .callStmt fn _ => fn != "az.style.use"
  | _ => true

theorem stepR_pres (fs : FSys) (s : Stmt) (st : PState) (h : globalFree s = true) :
    (stepR fs s st).1.cwd = st.cwd ∧ (stepR fs s st).1.rng = st.rng ∧
    (stepR fs s st).1.style = st.style := by
  cases s with
  | chdirGuard => simp [globalFree] at h
  | seed n => simp [globalFree] at h
  | assignCall x fn args =>
      have hfn : fn ≠ "az.style.use" := by simpa [globalFree] using h
      simp only [stepR]
      split
      · simp
      · next eff he =>
          have hst := evalCall_ok_styleNone fs st.cwd st.binds st.rng fn args eff hfn he
          split <;> simp [applyEff, hst]
  | callStmt fn args =>
      have hfn : fn ≠ "az.style.use" := by simpa [globalFree] using h
      simp only [stepR]
      split
      · simp
      · next eff he =>
          have hst := evalCall_ok_styleNone fs st.cwd st.binds st.rng fn args eff hfn he
          split <;> simp [applyEff, hst]
  | assignDict x es => simp only [stepR]; split <;> simp
  | _ => simp [stepR]

theorem runStmts_pres (fs : FSys) (l : List Stmt) (r : PState × Option PErr)
    (h : ∀ s ∈ l, globalFree s = true) :
    (runStmts fs l r).1.cwd = r.1.cwd ∧ (runStmts fs l r).1.rng = r.1.rng ∧
    (runStmts fs l r).1.style = r.1.style := by
  induction l generalizing r with
  | nil => exact ⟨rfl, rfl, rfl⟩
  | cons s t ih =>
      obtain ⟨st, e⟩ := r
      cases e with
      | none =>
          have h1 := stepR_pres fs s st (h s (by simp))
          have h2 := ih (stepR fs s st) (fun s' hs' => h s' (by simp [hs']))
          simp only [runStmts]
          exact ⟨h2.1.trans h1.1, h2.2.1.trans h1.2.1, h2.2.2.trans h1.2.2⟩
      | some e => simp [runStmts]

/-! ### Setup-cell and setup-prefix characterizations -/

/-- Running the setup cell of notebook 4 from any state: the working
directory is normalized by the guard, the RNG is seeded to 0, the imported
modules are recorded, and nothing fails. -/
theorem setup4_run (fs : FSys) (st : PState) :
    runStmts fs setup4 (st, none) =
      ({ st with
          cwd := chdirStep st.cwd
          rng := 0
          modules := st.modules ++ ["os", "arviz", "numpy", "pandas", "matplotlib.pyplot"] }, none) := by
  by_cases h : basename st.cwd = "notebooks" <;>
    simp [setup4, runStmts, stepR, chdirStep, h]

/-- Running the setup cell of notebook 5 from any state: seeding happens
before the guard, `utils` is imported, and `NETCDF_DIR` is bound. -/
theorem setup5_run (fs : FSys) (st : PState) :
    runStmts fs setup5 (st, none) =
      ({ st with
          cwd := chdirStep st.cwd
          rng := 0
          modules := st.modules ++ ["os", "time", "arviz", "numpy", "pymc3", "scipy.stats", "utils"]
          binds := setBind st.binds "NETCDF_DIR" (.strV "inference_data") }, none) := by
  by_cases h : basename st.cwd = "notebooks" <;>
    simp [setup5, runStmts, stepR, chdirStep, h]

/-- The setup prefix of a notebook: the setup cell followed by the style
cell. -/
def prefix4 : List Stmt := setup4 ++ [styleStmt]

def rest4 : List Stmt := [loadGreen, loadBudget, loadRoots]

def prefix5 : List Stmt := setup5 ++ [styleStmt]

def rest5 : List Stmt := cmp8 ++ cmp9 ++ cmp12

theorem nb4_split : allStmts nb4 = prefix4 ++ rest4 := rfl

theorem nb5_split : allStmts nb5 = prefix5 ++ rest5 := rfl

theorem prefix4_run (fs : FSys) (cwd : List String) (r : Nat) :
    runStmts fs prefix4 (initState cwd r, none) =
      ({ initState cwd r with
          cwd := chdirStep cwd
          rng := 0
          style := "arviz-white"
          modules := ["os", "arviz", "numpy", "pandas", "matplotlib.pyplot"] }, none) := by
  rw [prefix4, runStmts_append, setup4_run]
  simp [runStmts, stepR, styleStmt, evalCall, applyEff, initState]

theorem prefix5_run (fs : FSys) (cwd : List String) (r : Nat) :
    runStmts fs prefix5 (initState cwd r, none) =
      ({ initState cwd r with
          cwd := chdirStep cwd
          rng := 0
          style := "arviz-white"
          modules := ["os", "time", "arviz", "numpy", "pymc3", "scipy.stats", "utils"]
          binds := [("NETCDF_DIR", .strV "inference_data")] }, none) := by
  rw [prefix5, runStmts_append, setup5_run]
  simp [runStmts, stepR, styleStmt, evalCall, applyEff, initState, setBind]

/-- Every statement that reads a name bound to a loaded inference result is
a direct call into the external library's public API (or a plain dict
literal used to assemble such a call's argument). -/
def opsOnLoadedAreDirect (l : List Stmt) : Bool :=
  (loadBoundNames l).all fun x =>
    l.all fun s =>
      if stmtReads s x then
        match s with
        | .callStmt fn _ => externalApi.contains fn
        | .assignCall _ fn _ => externalApi.contains fn
        | .assignDict _ _ => true
        | _ => false
      else true

/-! ### The claims -/

/-- C1, counterexample: the claim that no sampler or estimator authored by
this repository is imported or called by any notebook cell is false as
stated: the comparison notebook's setup cell runs
`from utils import metropolis_hastings`, importing the repository's own
Metropolis-Hastings MCMC sampler from its repository-local `utils`
module. -/
theorem claim1_cex :
    "metropolis_hastings" ∈ localImportedNames (allStmts nb5) ∧
    "utils" ∈ repoLocalModules := by decide

/-- C1, amended: every library function the notebooks call belongs to the
external statistical library's public API, and the repository-authored
sampler `metropolis_hastings` is never called by any cell of either
notebook, although the comparison notebook does import it (unused). -/
theorem claim1_amended :
    (allCalledFns (allStmts nb4 ++ allStmts nb5)).all (fun f => externalApi.contains f) = true ∧
    "metropolis_hastings" ∉ allCalledFns (allStmts nb4 ++ allStmts nb5) ∧
    "metropolis_hastings" ∈ localImportedNames (allStmts nb5) := by decide

/-- C2: running either notebook end to end writes no files and opens no
network connection, whatever the local store, starting directory and initial
RNG state are: the final state of every run (including aborted ones) records
no written file and no network connection; the only inputs read are the
local files/datasets the load calls name, and the only outputs are the
inline renders collected in `outputs`. -/
theorem claim2_no_writes_no_net :
    ∀ (fs : FSys) (cwd : List String) (r : Nat),
      ((runNotebook fs nb4 cwd r).1.written = [] ∧ (runNotebook fs nb4 cwd r).1.net = 0) ∧
      ((runNotebook fs nb5 cwd r).1.written = [] ∧ (runNotebook fs nb5 cwd r).1.net = 0) := by
  intro fs cwd r
  have h4 := runStmts_wn fs (allStmts nb4) (initState cwd r, none)
  have h5 := runStmts_wn fs (allStmts nb5) (initState cwd r, none)
  exact ⟨⟨h4.1, h4.2⟩, ⟨h5.1, h5.2⟩⟩

/-- C3: every operation the notebooks perform on loaded inference results is
a direct, unmodified call into the external library's public API, and every
library function either notebook invokes is one of that API's entry points:
there is no wrapping, adaptation, or repository-defined operation anywhere
in the cells. -/
theorem claim3_direct_library_calls :
    opsOnLoadedAreDirect (allStmts nb4) = true ∧
    opsOnLoadedAreDirect (allStmts nb5) = true ∧
    (allCalledFns (allStmts nb4)).all (fun f => externalApi.contains f) = true ∧
    (allCalledFns (allStmts nb5)).all (fun f => externalApi.contains f) = true := by decide

/-- C4, counterexample: the claim that no notebook cell modifies
process-global state such as the working directory or the RNG state is
false: running notebook 4 from the directory `/p/x` with initial RNG state 7
leaves the working directory at `/p` (the setup cell's chdir guard moved it)
and the RNG state at 0 (the setup cell seeded it). -/
theorem claim4_cex :
    (runNotebook noFS nb4 ["p", "x"] 7).1.cwd = ["p"] ∧
    (["p"] : List String) ≠ ["p", "x"] ∧
    (runNotebook noFS nb4 ["p", "x"] 7).1.rng = 0 ∧ (0 : Nat) ≠ 7 :=
  ⟨rfl, by decide, rfl, by decide⟩

/-- C4, amended: the notebooks only load precomputed inference results,
invoke library functions and display commentary, and the only process-global
state either notebook modifies is set by its setup and style cells: the
working directory is normalized by the chdir guard, the NumPy global RNG is
seeded to 0, and the plotting style is set to `arviz-white`; every run, from
any store, directory and RNG state, ends in exactly that global state. -/
theorem claim4_amended :
    ∀ (fs : FSys) (cwd : List String) (r : Nat),
      ((runNotebook fs nb4 cwd r).1.cwd = chdirStep cwd ∧
       (runNotebook fs nb4 cwd r).1.rng = 0 ∧
       (runNotebook fs nb4 cwd r).1.style = "arviz-white") ∧
      ((runNotebook fs nb5 cwd r).1.cwd = chdirStep cwd ∧
       (runNotebook fs nb5 cwd r).1.rng = 0 ∧
       (runNotebook fs nb5 cwd r).1.style = "arviz-white") := by
  intro fs cwd r
  constructor
  · have hs : runNotebook fs nb4 cwd r
        = runStmts fs rest4 (runStmts fs prefix4 (initState cwd r, none)) := by
      rw [runNotebook, nb4_split, runStmts_append]
    rw [hs, prefix4_run]
    exact ⟨(runStmts_pres fs rest4 _ (by decide)).1,
      (runStmts_pres fs rest4 _ (by decide)).2.1,
      (runStmts_pres fs rest4 _ (by decide)).2.2⟩
  · have hs : runNotebook fs nb5 cwd r
        = runStmts fs rest5 (runStmts fs prefix5 (initState cwd r, none)) := by
      rw [runNotebook, nb5_split, runStmts_append]
    rw [hs, prefix5_run]
    exact ⟨(runStmts_pres fs rest5 _ (by decide)).1,
      (runStmts_pres fs rest5 _ (by decide)).2.1,
      (runStmts_pres fs rest5 _ (by decide)).2.2⟩

/-- The load path of each of notebook 4's three `az.from_netcdf` calls,
resolved against the working directory the chdir guard leaves. -/
def ncPath (cwd : List String) (f : String) : List String :=
  chdirStep cwd ++ ["inference_data", f]

/-- C5: every failure of every external-library call either notebook makes
propagates unhandled to the notebook UI.  First, generically: whenever any
statement of either notebook raises an error, the run's result is exactly
the state and error at the point of failure — nothing catches, retries,
translates or recovers, and no later cell runs.  Second, exhaustively: the
error outcome of every run is fully characterized by which artifact is the
first one missing from the local store — each of notebook 4's three
`az.from_netcdf` calls and each of notebook 5's `az.load_arviz_data`
targets (the cell-12 inline loads read the same two datasets) surfaces its
own missing-artifact error when it is the first to fail, and when every
artifact is present the run finishes with no error at all, so the remaining
library calls (`az.style.use`, `az.compare`, `az.plot_compare`) never fail
on the arguments the notebooks pass them. -/
theorem claim5_error_propagation :
    (∀ (fs : FSys) (cwd : List String) (r : Nat) (l1 : List Stmt) (s : Stmt) (l2 : List Stmt)
        (st st2 : PState) (e : PErr),
      allStmts nb4 = l1 ++ s :: l2 →
      runStmts fs l1 (initState cwd r, none) = (st, none) →
      stepR fs s st = (st2, some e) →
      runNotebook fs nb4 cwd r = (st2, some e)) ∧
    (∀ (fs : FSys) (cwd : List String) (r : Nat) (l1 : List Stmt) (s : Stmt) (l2 : List Stmt)
        (st st2 : PState) (e : PErr),
      allStmts nb5 = l1 ++ s :: l2 →
      runStmts fs l1 (initState cwd r, none) = (st, none) →
      stepR fs s st = (st2, some e) →
      runNotebook fs nb5 cwd r = (st2, some e)) ∧
    (∀ (fs : FSys) (cwd : List String) (r : Nat),
      lookupFile fs (ncPath cwd "GreenPower.nc") = none →
      (runNotebook fs nb4 cwd r).2 = some (.missingFile (ncPath cwd "GreenPower.nc"))) ∧
    (∀ (fs : FSys) (cwd : List String) (r : Nat) (c1 : Nat),
      lookupFile fs (ncPath cwd "GreenPower.nc") = some c1 →
      lookupFile fs (ncPath cwd "BudgetFertilizer.nc") = none →
      (runNotebook fs nb4 cwd r).2 = some (.missingFile (ncPath cwd "BudgetFertilizer.nc"))) ∧
    (∀ (fs : FSys) (cwd : List String) (r : Nat) (c1 c2 : Nat),
      lookupFile fs (ncPath cwd "GreenPower.nc") = some c1 →
      lookupFile fs (ncPath cwd "BudgetFertilizer.nc") = some c2 →
      lookupFile fs (ncPath cwd "RootsGalore.nc") = none →
      (runNotebook fs nb4 cwd r).2 = some (.missingFile (ncPath cwd "RootsGalore.nc"))) ∧
    (∀ (fs : FSys) (cwd : List String) (r : Nat) (c1 c2 c3 : Nat),
      lookupFile fs (ncPath cwd "GreenPower.nc") = some c1 →
      lookupFile fs (ncPath cwd "BudgetFertilizer.nc") = some c2 →
      lookupFile fs (ncPath cwd "RootsGalore.nc") = some c3 →
      (runNotebook fs nb4 cwd r).2 = none) ∧
    (∀ (fs : FSys) (cwd : List String) (r : Nat),
      lookupDataset fs "non_centered_eight" = none →
      (runNotebook fs nb5 cwd r).2 = some (.missingDataset "non_centered_eight")) ∧
    (∀ (fs : FSys) (cwd : List String) (r : Nat) (c1 : Nat),
      lookupDataset fs "non_centered_eight" = some c1 →
      lookupDataset fs "centered_eight" = none →
      (runNotebook fs nb5 cwd r).2 = some (.missingDataset "centered_eight")) ∧
    (∀ (fs : FSys) (cwd : List String) (r : Nat) (c1 c2 : Nat),
      lookupDataset fs "non_centered_eight" = some c1 →
      lookupDataset fs "centered_eight" = some c2 →
      (runNotebook fs nb5 cwd r).2 = none) := by
  refine ⟨?_, ?_, ?_, ?_, ?_, ?_, ?_, ?_, ?_⟩
  · intro fs cwd r l1 s l2 st st2 e hsplit h1 h2
    rw [runNotebook, hsplit, runStmts_append, h1]
    simp [runStmts, h2, runStmts_stuck]
  · intro fs cwd r l1 s l2 st st2 e hsplit h1 h2
    rw [runNotebook, hsplit, runStmts_append, h1]
    simp [runStmts, h2, runStmts_stuck]
  · intro fs cwd r hmiss
    rw [runNotebook, nb4_split, runStmts_append, prefix4_run]
    simp only [ncPath] at hmiss ⊢
    simp [rest4, loadGreen, loadBudget, loadRoots, runStmts, stepR, evalCall,
      applyEff, render, setBind, initState, hmiss]
  · intro fs cwd r c1 h1 hmiss
    rw [runNotebook, nb4_split, runStmts_append, prefix4_run]
    simp only [ncPath] at h1 hmiss ⊢
    simp [rest4, loadGreen, loadBudget, loadRoots, runStmts, stepR, evalCall,
      applyEff, render, setBind, initState, h1, hmiss]
  · intro fs cwd r c1 c2 h1 h2 hmiss
    rw [runNotebook, nb4_split, runStmts_append, prefix4_run]
    simp only [ncPath] at h1 h2 hmiss ⊢
    simp [rest4, loadGreen, loadBudget, loadRoots, runStmts, stepR, evalCall,
      applyEff, render, setBind, lookupBind, initState, h1, h2, hmiss]
  · intro fs cwd r c1 c2 c3 h1 h2 h3
    rw [runNotebook, nb4_split, runStmts_append, prefix4_run]
    simp only [ncPath] at h1 h2 h3
    simp [rest4, loadGreen, loadBudget, loadRoots, runStmts, stepR, evalCall,
      applyEff, render, setBind, lookupBind, initState, h1, h2, h3]
  · intro fs cwd r hmiss
    rw [runNotebook, nb5_split, runStmts_append, prefix5_run]
    simp [rest5, cmp8, cmp9, cmp12, runStmts, stepR, evalCall,
      applyEff, render, setBind, initState, hmiss]
  · intro fs cwd r c1 h1 hmiss
    rw [runNotebook, nb5_split, runStmts_append, prefix5_run]
    simp [rest5, cmp8, cmp9, cmp12, runStmts, stepR, evalCall, evalEntries, evalDVal,
      compareRows, scaleOf, boolFlags, applyEff, render, setBind, lookupBind, initState,
      h1, hmiss]
  · intro fs cwd r c1 c2 h1 h2
    rw [runNotebook, nb5_split, runStmts_append, prefix5_run]
    simp [rest5, cmp8, cmp9, cmp12, runStmts, stepR, evalCall, evalEntries, evalDVal,
      compareRows, scaleOf, boolFlags, applyEff, render, setBind, lookupBind, initState,
      h1, h2]

/-- A store holding only `GreenPower.nc` (under `/p/notebooks`). -/
def fsGreenOnly : FSys :=
  ⟨[(["p", "notebooks", "inference_data", "GreenPower.nc"], 1)], []⟩

/-- A store holding all three inference files of notebook 4. -/
def fsAllFour : FSys :=
  ⟨[ (["p", "notebooks", "inference_data", "GreenPower.nc"], 1)
   , (["p", "notebooks", "inference_data", "BudgetFertilizer.nc"], 2)
   , (["p", "notebooks", "inference_data", "RootsGalore.nc"], 3) ], []⟩

/-- A store holding only the `non_centered_eight` sample dataset. -/
def fsNonCenteredOnly : FSys := ⟨[], [("non_centered_eight", 10)]⟩

/-- A store holding both sample datasets notebook 5 loads. -/
def fsBothDatasets : FSys := ⟨[], [("non_centered_eight", 10), ("centered_eight", 11)]⟩

/-- C5, witness: concrete instances of the propagation theorem — a missing
`GreenPower.nc` aborts notebook 4 with that file's error; with only
`GreenPower.nc` present the failure of the second load surfaces instead;
with all three files present notebook 4 finishes without error; a missing
`centered_eight` aborts notebook 5 at its second load; with both datasets
present notebook 5 finishes without error. -/
theorem claim5_witness :
    (runNotebook noFS nb4 ["p", "notebooks"] 0).2
      = some (.missingFile ["p", "notebooks", "inference_data", "GreenPower.nc"]) ∧
    (runNotebook fsGreenOnly nb4 ["p", "notebooks"] 0).2
      = some (.missingFile ["p", "notebooks", "inference_data", "BudgetFertilizer.nc"]) ∧
    (runNotebook fsAllFour nb4 ["p", "notebooks"] 0).2 = none ∧
    (runNotebook fsNonCenteredOnly nb5 ["p", "notebooks"] 0).2
      = some (.missingDataset "centered_eight") ∧
    (runNotebook fsBothDatasets nb5 ["p", "notebooks"] 0).2 = none := by
  refine ⟨?_, ?_, ?_, ?_, ?_⟩
  · exact (claim5_error_propagation.2.2.1 noFS ["p", "notebooks"] 0 rfl).trans (by rfl)
  · exact (claim5_error_propagation.2.2.2.1 fsGreenOnly ["p", "notebooks"] 0 1 rfl rfl).trans
      (by rfl)
  · exact claim5_error_propagation.2.2.2.2.2.1 fsAllFour ["p", "notebooks"] 0 1 2 3 rfl rfl rfl
  · exact claim5_error_propagation.2.2.2.2.2.2.2.1 fsNonCenteredOnly ["p", "notebooks"] 0 10
      rfl rfl
  · exact claim5_error_propagation.2.2.2.2.2.2.2.2 fsBothDatasets ["p", "notebooks"] 0 10 11
      rfl rfl

/-- C6, counterexample: the claim that there is exactly one external-library
entry point through which all serialized inference artifacts are loaded is
false: across the two notebooks two distinct entry points are used,
`az.from_netcdf` and `az.load_arviz_data`. -/
theorem claim6_cex :
    entryPoints (allStmts nb4 ++ allStmts nb5) = ["az.from_netcdf", "az.load_arviz_data"] ∧
    (entryPoints (allStmts nb4 ++ allStmts nb5)).length ≠ 1 := by decide

/-- C6, amended: within each notebook all serialized inference artifacts are
loaded through a single external-library entry point — `az.from_netcdf` in
the single-model notebook and `az.load_arviz_data` in the comparison
notebook — so two entry points are used across the repository, one per
notebook. -/
theorem claim6_amended :
    entryPoints (allStmts nb4) = ["az.from_netcdf"] ∧
    entryPoints (allStmts nb5) = ["az.load_arviz_data"] := by decide

/-- C7: the load calls of notebook 4 are given exactly the three files the
activity text names, each under the `inference_data` directory and exactly
as named, and no load call of that notebook names any other file: its only
deserialization calls are the three `az.from_netcdf` calls. -/
theorem claim7_load_paths :
    fileLoadArgs (allStmts nb4) = activityFiles.map (fun f => ("inference_data", f)) ∧
    (allCalledFns (allStmts nb4)).filter (fun f => loadFns.contains f)
      = ["az.from_netcdf", "az.from_netcdf", "az.from_netcdf"] := by decide

/-- C8: every variable the notebooks bind to a loaded inference result
(`greenpower`, `budgetfertilizer`, `rootsgalore`, `data1`, `data2`) is bound
exactly once, every statement that touches it uses it read-only as the
argument of a public external-library call or inside a plain dict literal,
and no call to any of the library's serialization entry points occurs, so
nothing is ever re-serialized or persisted. -/
theorem claim8_lifecycle :
    loadBoundNames (allStmts nb4) = ["greenpower", "budgetfertilizer", "rootsgalore"] ∧
    loadBoundNames (allStmts nb5) = ["data1", "data2"] ∧
    ((loadBoundNames (allStmts nb4)).all fun x =>
        bindCount (allStmts nb4) x == 1 && readOnlyUse (allStmts nb4) x) = true ∧
    ((loadBoundNames (allStmts nb5)).all fun x =>
        bindCount (allStmts nb5) x == 1 && readOnlyUse (allStmts nb5) x) = true ∧
    (allCalledFns (allStmts nb4 ++ allStmts nb5)).all
        (fun f => !(persistFns.contains f)) = true := by decide

/-- C9, counterexample: the claim that from any directory whose basename and
parent's basename are both not `notebooks` executing the setup cell twice
leaves a different working directory than executing it once is false at
depth one: from `/x` one execution moves to the root and a second execution
stays there (`os.chdir("..")` at the root is a no-op), so twice equals
once. -/
theorem claim9_cex :
    basename ["x"] ≠ "notebooks" ∧ basename (parentDir ["x"]) ≠ "notebooks" ∧
    (runStmts noFS setup4 (runStmts noFS setup4 (initState ["x"] 0, none))).1.cwd
      = (runStmts noFS setup4 (initState ["x"] 0, none)).1.cwd := by
  exact ⟨by decide, by decide, rfl⟩

/-- C9, amended: from a starting directory with at least two components
whose basename is not `notebooks`, one execution of either setup cell moves
the working directory up one level, and if the parent's basename is also not
`notebooks`, executing the cell twice leaves a different working directory
than executing it once. -/
theorem claim9_amended :
    ∀ (fs : FSys) (cwd : List String) (r : Nat),
      2 ≤ cwd.length → basename cwd ≠ "notebooks" → basename (parentDir cwd) ≠ "notebooks" →
      ((runStmts fs setup4 (initState cwd r, none)).1.cwd = parentDir cwd ∧
       (runStmts fs setup4 (runStmts fs setup4 (initState cwd r, none))).1.cwd
         ≠ (runStmts fs setup4 (initState cwd r, none)).1.cwd) ∧
      ((runStmts fs setup5 (initState cwd r, none)).1.cwd = parentDir cwd ∧
       (runStmts fs setup5 (runStmts fs setup5 (initState cwd r, none))).1.cwd
         ≠ (runStmts fs setup5 (initState cwd r, none)).1.cwd) := by
  intro fs cwd r hlen h1 h2
  have hc1 : chdirStep cwd = parentDir cwd := by simp [chdirStep, h1]
  have hc2 : chdirStep (parentDir cwd) = parentDir (parentDir cwd) := by simp [chdirStep, h2]
  have hne : parentDir (parentDir cwd) ≠ parentDir cwd := by
    intro heq
    have hl := congrArg List.length heq
    simp only [parentDir, List.length_dropLast] at hl
    omega
  simp only [setup4_run, setup5_run, initState]
  constructor
  · exact ⟨hc1, by simp [hc1, hc2, hne]⟩
  · exact ⟨hc1, by simp [hc1, hc2, hne]⟩

/-- C9, witness: from `/a/b` (depth two, no component named `notebooks`),
running the setup cell twice ends in a different directory than running it
once. -/
theorem claim9_witness :
    (runStmts noFS setup4 (runStmts noFS setup4 (initState ["a", "b"] 0, none))).1.cwd
      ≠ (runStmts noFS setup4 (initState ["a", "b"] 0, none)).1.cwd :=
  ((claim9_amended noFS ["a", "b"] 0 (by decide) (by decide) (by decide)).1).2

/-- C10: both notebooks seed the NumPy global RNG with 0 in their setup
cell, no statement before the seeding reads the RNG, and consequently two
complete executions of the same notebook from the same local store and
starting directory produce identical runs — bindings, inline renders, final
state and error — whatever the two initial RNG states were. -/
theorem claim10_determinism :
    seededBeforeRngUse (allStmts nb4) = true ∧
    seededBeforeRngUse (allStmts nb5) = true ∧
    (∀ (fs : FSys) (cwd : List String) (r1 r2 : Nat),
      runNotebook fs nb4 cwd r1 = runNotebook fs nb4 cwd r2) ∧
    (∀ (fs : FSys) (cwd : List String) (r1 r2 : Nat),
      runNotebook fs nb5 cwd r1 = runNotebook fs nb5 cwd r2) := by
  refine ⟨by decide, by decide, ?_, ?_⟩
  · intro fs cwd r1 r2
    rw [runNotebook, runNotebook, nb4_split, runStmts_append, runStmts_append,
      prefix4_run, prefix4_run]
    rfl
  · intro fs cwd r1 r2
    rw [runNotebook, runNotebook, nb5_split, runStmts_append, runStmts_append,
      prefix5_run, prefix5_run]
    rfl

end ModelEvalNB
